import Mathlib

/-!
Verification of the transactional access abstraction of
`crates/storage/db/src/abstraction/database.rs`: the `Database` capability
(open a read-only or read-write transaction), the scoped-execution helpers
`view` and `update`, and the delegation wrappers for `Arc<DB>` and `&DB`.
-/

/-- Modelled from the spec: `DatabaseError` is defined outside this fragment.
The spec describes it as a tagged failure distinguishing why a transaction
could not be opened (engine resource exhaustion, or a read-only store
refusing write access) from why it could not be committed. This layer never
inspects error internals, only propagates them. -/
inductive DatabaseError : Type where
  | openResourceExhausted : DatabaseError
  | openReadOnly : DatabaseError
  | commitFailed : DatabaseError
deriving DecidableEq, Repr

/-- Modelled from the spec: the read transaction collaborator `DbTx` is
defined outside this fragment. It exposes `commit() -> Result<(), Error>`
and is otherwise opaque to this layer, so its read-only query surface is an
abstract payload of type `tau`. The `commitResult` field records the
outcome the engine produces when `commit` is invoked on this transaction. -/
structure DbTx (tau : Type) : Type where
  data : tau
  commitResult : Except DatabaseError Unit

/-- Modelled from the spec: `DbTx::commit` finalizes the read transaction,
releasing engine-held read resources; it may fail. -/
def DbTx.commit {tau : Type} (t : DbTx tau) : Except DatabaseError Unit :=
  t.commitResult

/-- Modelled from the spec: the write transaction collaborator `DbTxMut` is
defined outside this fragment. It exposes `commit() -> Result<(), Error>`
plus mutation and bulk-import operations that are opaque here, abstracted
as a payload of type `mu`. -/
structure DbTxMut (mu : Type) : Type where
  data : mu
  commitResult : Except DatabaseError Unit

/-- Modelled from the spec: `DbTxMut::commit` finalizes the write
transaction; it may fail. -/
def DbTxMut.commit {mu : Type} (t : DbTxMut mu) : Except DatabaseError Unit :=
  t.commitResult

/-- The `Database` trait of `database.rs`, embedded as a record of its two
required methods. `tx` is `fn tx(&self) -> Result<Self::TX, DatabaseError>`
and `tx_mut` is `fn tx_mut(&self) -> Result<Self::TXMut, DatabaseError>`;
the associated transaction types `TX` and `TXMut` are `DbTx tau` and
`DbTxMut mu`. The provided methods `view` and `update` are defined below on
this record, mirroring the trait's default bodies. -/
structure Database (tau mu : Type) : Type where
  tx : Except DatabaseError (DbTx tau)
  tx_mut : Except DatabaseError (DbTxMut mu)

/-- `Database::view`, translated clause by clause from the source:
`let tx = self.tx()?; let res = f(&tx); tx.commit()?; Ok(res)`. -/
def Database.view {tau mu T : Type} (db : Database tau mu)
    (f : DbTx tau → T) : Except DatabaseError T :=
  match db.tx with
  | Except.error e => Except.error e
  | Except.ok tx =>
    let res := f tx
    match tx.commit with
    | Except.error e => Except.error e
    | Except.ok _ => Except.ok res

/-- `Database::update`, translated clause by clause from the source:
`let tx = self.tx_mut()?; let res = f(&tx); tx.commit()?; Ok(res)`. -/
def Database.update {tau mu T : Type} (db : Database tau mu)
    (f : DbTxMut mu → T) : Except DatabaseError T :=
  match db.tx_mut with
  | Except.error e => Except.error e
  | Except.ok tx =>
    let res := f tx
    match tx.commit with
    | Except.error e => Except.error e
    | Except.ok _ => Except.ok res

/-- Observable operations performed while a helper runs: the two trait
methods (`tx`, `tx_mut`), an invocation of the caller-supplied function,
and a `commit` on either transaction kind. -/
inductive Event : Type where
  | openRead : Event
  | openWrite : Event
  | callF : Event
  | commitRead : Event
  | commitWrite : Event
deriving DecidableEq, BEq, Repr

/-- Instrumented `Database::view`: the same translation as `Database.view`,
additionally recording, in order, which operations the helper invokes along
the path it takes. The result component is proved to coincide with
`Database.view` in `Database.viewT_fst`. -/
def Database.viewT {tau mu T : Type} (db : Database tau mu)
    (f : DbTx tau → T) : Except DatabaseError T × List Event :=
  match db.tx with
  | Except.error e => (Except.error e, [Event.openRead])
  | Except.ok tx =>
    let res := f tx
    match tx.commit with
    | Except.error e =>
      (Except.error e, [Event.openRead, Event.callF, Event.commitRead])
    | Except.ok _ =>
      (Except.ok res, [Event.openRead, Event.callF, Event.commitRead])

/-- Instrumented `Database::update`, analogous to `Database.viewT`. -/
def Database.updateT {tau mu T : Type} (db : Database tau mu)
    (f : DbTxMut mu → T) : Except DatabaseError T × List Event :=
  match db.tx_mut with
  | Except.error e => (Except.error e, [Event.openWrite])
  | Except.ok tx =>
    let res := f tx
    match tx.commit with
    | Except.error e =>
      (Except.error e, [Event.openWrite, Event.callF, Event.commitWrite])
    | Except.ok _ =>
      (Except.ok res, [Event.openWrite, Event.callF, Event.commitWrite])

/-- The instrumentation is conservative: the result of the instrumented
`view` is the result of `view`. -/
theorem Database.viewT_fst {tau mu T : Type} (db : Database tau mu)
    (f : DbTx tau → T) : (db.viewT f).1 = db.view f := by
  unfold Database.viewT Database.view
  cases db.tx with
  | error e => rfl
  | ok tx => cases h : tx.commit <;> simp [h]

/-- The instrumentation is conservative: the result of the instrumented
`update` is the result of `update`. -/
theorem Database.updateT_fst {tau mu T : Type} (db : Database tau mu)
    (f : DbTxMut mu → T) : (db.updateT f).1 = db.update f := by
  unfold Database.updateT Database.update
  cases db.tx_mut with
  | error e => rfl
  | ok tx => cases h : tx.commit <;> simp [h]

/-- `impl<DB: Database> Database for Arc<DB>`: the shared-ownership wrapper
implements the capability by forwarding `tx` and `tx_mut` verbatim to the
inner handle, surfacing the same transaction types (`TX = <DB>::TX`,
`TXMut = <DB>::TXMut`, i.e. the same `DbTx tau` / `DbTxMut mu` indices). -/
def arcImpl {tau mu : Type} (db : Database tau mu) : Database tau mu :=
  ⟨db.tx, db.tx_mut⟩

/-- `impl<DB: Database> Database for &DB`: the borrowed-reference wrapper
implements the capability by forwarding `tx` and `tx_mut` verbatim to the
referenced handle, surfacing the same transaction types. -/
def refImpl {tau mu : Type} (db : Database tau mu) : Database tau mu :=
  ⟨db.tx, db.tx_mut⟩

/-- A concrete handle on which both opens and both commits succeed. -/
def dbOK : Database Nat Nat :=
  ⟨Except.ok ⟨0, Except.ok ()⟩, Except.ok ⟨1, Except.ok ()⟩⟩

/-- A concrete handle on which both opens succeed but both commits fail. -/
def dbCommitFail : Database Nat Nat :=
  ⟨Except.ok ⟨0, Except.error DatabaseError.commitFailed⟩,
   Except.ok ⟨1, Except.error DatabaseError.commitFailed⟩⟩

/-- A concrete handle on which the read open fails with resource
exhaustion and the write open fails because the store is read-only. -/
def dbOpenFail : Database Nat Nat :=
  ⟨Except.error DatabaseError.openResourceExhausted,
   Except.error DatabaseError.openReadOnly⟩

/-- C1: if opening the transaction succeeds and the subsequent commit
succeeds, `view` (and likewise `update`) returns exactly the value the
caller-supplied function returned, unmodified, wrapped as success. -/
theorem view_update_success_returns_f_result {tau mu T U : Type}
    (db : Database tau mu) (f : DbTx tau → T) (g : DbTxMut mu → U)
    (t : DbTx tau) (m : DbTxMut mu)
    (ht : db.tx = Except.ok t) (hc : t.commit = Except.ok ())
    (hm : db.tx_mut = Except.ok m) (hcm : m.commit = Except.ok ()) :
    db.view f = Except.ok (f t) ∧ db.update g = Except.ok (g m) := by
  constructor
  · unfold Database.view
    rw [ht]
    simp [hc]
  · unfold Database.update
    rw [hm]
    simp [hcm]

/-- Witness for C1 on the concrete handle `dbOK`. -/
theorem view_update_success_returns_f_result_witness :
    dbOK.view (fun t => t.data + 41) = Except.ok 41 ∧
    dbOK.update (fun m => m.data * 3) = Except.ok 3 :=
  view_update_success_returns_f_result dbOK (fun t => t.data + 41)
    (fun m => m.data * 3) ⟨0, Except.ok ()⟩ ⟨1, Except.ok ()⟩ rfl rfl rfl rfl

/-- C2: if opening succeeds but the commit fails, `view` (and likewise
`update`) returns the commit error; the value the function computed is
discarded and not observable in the return value — the result is the same
for any two functions, even one whose computation was successful. -/
theorem commit_failure_discards_result {tau mu T U : Type}
    (db : Database tau mu) (f g : DbTx tau → T) (p q : DbTxMut mu → U)
    (t : DbTx tau) (m : DbTxMut mu) (e eM : DatabaseError)
    (ht : db.tx = Except.ok t) (hc : t.commit = Except.error e)
    (hm : db.tx_mut = Except.ok m) (hcm : m.commit = Except.error eM) :
    db.view f = Except.error e ∧ db.view f = db.view g ∧
    db.update p = Except.error eM ∧ db.update p = db.update q := by
  have hv : ∀ h : DbTx tau → T, db.view h = Except.error e := by
    intro h
    unfold Database.view
    rw [ht]
    simp [hc]
  have hu : ∀ h : DbTxMut mu → U, db.update h = Except.error eM := by
    intro h
    unfold Database.update
    rw [hm]
    simp [hcm]
  exact ⟨hv f, (hv f).trans (hv g).symm, hu p, (hu p).trans (hu q).symm⟩

/-- Witness for C2 on the concrete handle `dbCommitFail`. -/
theorem commit_failure_discards_result_witness :
    dbCommitFail.view (fun t => t.data + 41) =
      Except.error DatabaseError.commitFailed ∧
    dbCommitFail.view (fun t => t.data + 41) =
      dbCommitFail.view (fun t => t.data) ∧
    dbCommitFail.update (fun m => m.data * 3) =
      Except.error DatabaseError.commitFailed ∧
    dbCommitFail.update (fun m => m.data * 3) =
      dbCommitFail.update (fun m => m.data) :=
  commit_failure_discards_result dbCommitFail (fun t => t.data + 41)
    (fun t => t.data) (fun m => m.data * 3) (fun m => m.data)
    ⟨0, Except.error DatabaseError.commitFailed⟩
    ⟨1, Except.error DatabaseError.commitFailed⟩
    DatabaseError.commitFailed DatabaseError.commitFailed rfl rfl rfl rfl

/-- C3: if the open fails (the read open for `view`, the write open for
`update`), the helper returns that same open error unchanged, the
caller-supplied function is never invoked (zero `callF` events), and no
commit is attempted (zero commit events). -/
theorem open_failure_skips_f_and_commit {tau mu T U : Type}
    (db : Database tau mu) (f : DbTx tau → T) (g : DbTxMut mu → U)
    (e eM : DatabaseError)
    (ht : db.tx = Except.error e) (hm : db.tx_mut = Except.error eM) :
    db.view f = Except.error e ∧
    (db.viewT f).2.count Event.callF = 0 ∧
    (db.viewT f).2.count Event.commitRead = 0 ∧
    db.update g = Except.error eM ∧
    (db.updateT g).2.count Event.callF = 0 ∧
    (db.updateT g).2.count Event.commitWrite = 0 := by
  unfold Database.view Database.viewT Database.update Database.updateT
  rw [ht, hm]
  exact ⟨rfl, rfl, rfl, rfl, rfl, rfl⟩

/-- Witness for C3 on the concrete handle `dbOpenFail`, whose write open
fails with the distinct read-only-store error. -/
theorem open_failure_skips_f_and_commit_witness :
    dbOpenFail.view (fun t => t.data) =
      Except.error DatabaseError.openResourceExhausted ∧
    (dbOpenFail.viewT (fun t => t.data)).2.count Event.callF = 0 ∧
    (dbOpenFail.viewT (fun t => t.data)).2.count Event.commitRead = 0 ∧
    dbOpenFail.update (fun m => m.data) =
      Except.error DatabaseError.openReadOnly ∧
    (dbOpenFail.updateT (fun m => m.data)).2.count Event.callF = 0 ∧
    (dbOpenFail.updateT (fun m => m.data)).2.count Event.commitWrite = 0 :=
  open_failure_skips_f_and_commit dbOpenFail (fun t => t.data)
    (fun m => m.data) DatabaseError.openResourceExhausted
    DatabaseError.openReadOnly rfl rfl

/-- C4: on every execution path of `view` and `update` (open failure,
commit failure, full success), exactly one commit invocation occurs per
successful open and none otherwise — read-only transactions are committed
explicitly just like write transactions, so the transaction never outlives
the helper call. -/
theorem one_commit_per_successful_open {tau mu T U : Type}
    (db : Database tau mu) (f : DbTx tau → T) (g : DbTxMut mu → U) :
    (db.viewT f).2.count Event.commitRead =
      (match db.tx with | Except.ok _ => 1 | Except.error _ => 0) ∧
    (db.updateT g).2.count Event.commitWrite =
      (match db.tx_mut with | Except.ok _ => 1 | Except.error _ => 0) := by
  constructor
  · unfold Database.viewT
    cases db.tx with
    | error e => rfl
    | ok tx => cases h : tx.commit <;> simp [h] <;> rfl
  · unfold Database.updateT
    cases db.tx_mut with
    | error e => rfl
    | ok tx => cases h : tx.commit <;> simp [h] <;> rfl

/-- C5: the shared-ownership wrapper (`Arc<DB>`) forwards `tx` and `tx_mut`
verbatim to the inner handle, so `view` and `update` through the wrapper
produce identical results and identical traces (hence identical call counts
on the caller-supplied function) as through the handle itself. -/
theorem arc_wrapper_transparent {tau mu T U : Type}
    (db : Database tau mu) (f : DbTx tau → T) (g : DbTxMut mu → U) :
    (arcImpl db).tx = db.tx ∧ (arcImpl db).tx_mut = db.tx_mut ∧
    (arcImpl db).view f = db.view f ∧ (arcImpl db).viewT f = db.viewT f ∧
    (arcImpl db).update g = db.update g ∧
    (arcImpl db).updateT g = db.updateT g :=
  ⟨rfl, rfl, rfl, rfl, rfl, rfl⟩

/-- C6: the borrowed-reference wrapper (`&DB`) behaves identically to the
handle itself — `tx` and `tx_mut` forward verbatim and `view`/`update`
produce identical results and traces — and this holds transitively: a
reference to the shared-ownership wrapper behaves identically to the base
handle. -/
theorem ref_wrapper_transparent {tau mu T U : Type}
    (db : Database tau mu) (f : DbTx tau → T) (g : DbTxMut mu → U) :
    (refImpl db).tx = db.tx ∧ (refImpl db).tx_mut = db.tx_mut ∧
    (refImpl db).view f = db.view f ∧ (refImpl db).viewT f = db.viewT f ∧
    (refImpl db).update g = db.update g ∧
    (refImpl db).updateT g = db.updateT g ∧
    (refImpl (arcImpl db)).view f = db.view f ∧
    (refImpl (arcImpl db)).viewT f = db.viewT f ∧
    (refImpl (arcImpl db)).update g = db.update g ∧
    (refImpl (arcImpl db)).updateT g = db.updateT g :=
  ⟨rfl, rfl, rfl, rfl, rfl, rfl, rfl, rfl, rfl, rfl⟩

/-- C7: `update` is not idempotent. Two sequential `update` calls each
independently open, run the function in, and commit their own write
transaction: whenever the write open succeeds, the concatenated trace of
the two calls shows two open calls, two invocations of the function, and
two commit calls. -/
theorem update_twice_two_opens {tau mu U : Type}
    (db : Database tau mu) (g : DbTxMut mu → U) (m : DbTxMut mu)
    (hm : db.tx_mut = Except.ok m) :
    ((db.updateT g).2 ++ (db.updateT g).2).count Event.openWrite = 2 ∧
    ((db.updateT g).2 ++ (db.updateT g).2).count Event.callF = 2 ∧
    ((db.updateT g).2 ++ (db.updateT g).2).count Event.commitWrite = 2 := by
  unfold Database.updateT
  rw [hm]
  cases h : m.commit <;> simp [h] <;> exact ⟨rfl, rfl, rfl⟩

/-- Witness for C7 on the concrete handle `dbOK`. -/
theorem update_twice_two_opens_witness :
    ((dbOK.updateT (fun m => m.data)).2 ++
      (dbOK.updateT (fun m => m.data)).2).count Event.openWrite = 2 ∧
    ((dbOK.updateT (fun m => m.data)).2 ++
      (dbOK.updateT (fun m => m.data)).2).count Event.callF = 2 ∧
    ((dbOK.updateT (fun m => m.data)).2 ++
      (dbOK.updateT (fun m => m.data)).2).count Event.commitWrite = 2 :=
  update_twice_two_opens dbOK (fun m => m.data) ⟨1, Except.ok ()⟩ rfl

/-- C9: on every path, `view` never invokes `tx_mut` (no `openWrite` event,
no write commit) and `update` never invokes `tx` (no `openRead` event, no
read commit); each helper performs exactly the single open it needs. The
signatures of `Database.view` and `Database.update` additionally show that
the function receives the read-only transaction type `DbTx` (respectively
the write transaction type `DbTxMut`). -/
theorem view_update_frame {tau mu T U : Type}
    (db : Database tau mu) (f : DbTx tau → T) (g : DbTxMut mu → U) :
    (db.viewT f).2.count Event.openWrite = 0 ∧
    (db.viewT f).2.count Event.commitWrite = 0 ∧
    (db.viewT f).2.count Event.openRead = 1 ∧
    (db.updateT g).2.count Event.openRead = 0 ∧
    (db.updateT g).2.count Event.commitRead = 0 ∧
    (db.updateT g).2.count Event.openWrite = 1 := by
  unfold Database.viewT Database.updateT
  refine ⟨?_, ?_, ?_, ?_, ?_, ?_⟩
  all_goals first
  | (cases db.tx with
     | error e => rfl
     | ok tx => cases h : tx.commit <;> simp [h] <;> rfl)
  | (cases db.tx_mut with
     | error e => rfl
     | ok tx => cases h : tx.commit <;> simp [h] <;> rfl)

/-- A relational (possibly nondeterministic) view of a database handle:
`txR o` (resp. `txMutR o`) holds when an invocation of `tx` (resp.
`tx_mut`) can produce the outcome `o`, and `commitR t o` (resp.
`commitMutR t o`) holds when committing the transaction `t` can produce
the outcome `o`. Over this model, determinism of `view`/`update` is a
property to prove rather than a consequence of purity. -/
structure DatabaseRel (TX TXMut : Type) : Type 1 where
  txR : Except DatabaseError TX → Prop
  txMutR : Except DatabaseError TXMut → Prop
  commitR : TX → Except DatabaseError Unit → Prop
  commitMutR : TXMut → Except DatabaseError Unit → Prop

/-- The executions of `Database::view` over the relational model: one
constructor per control path of the source (open failure, commit failure,
success), in the source's order of operations. -/
inductive ViewR {TX TXMut T : Type} (db : DatabaseRel TX TXMut)
    (f : TX → T) : Except DatabaseError T → Prop where
  | openFail (e : DatabaseError) :
      db.txR (Except.error e) → ViewR db f (Except.error e)
  | commitFail (t : TX) (e : DatabaseError) :
      db.txR (Except.ok t) → db.commitR t (Except.error e) →
      ViewR db f (Except.error e)
  | success (t : TX) :
      db.txR (Except.ok t) → db.commitR t (Except.ok ()) →
      ViewR db f (Except.ok (f t))

/-- The executions of `Database::update` over the relational model. -/
inductive UpdateR {TX TXMut T : Type} (db : DatabaseRel TX TXMut)
    (f : TXMut → T) : Except DatabaseError T → Prop where
  | openFail (e : DatabaseError) :
      db.txMutR (Except.error e) → UpdateR db f (Except.error e)
  | commitFail (t : TXMut) (e : DatabaseError) :
      db.txMutR (Except.ok t) → db.commitMutR t (Except.error e) →
      UpdateR db f (Except.error e)
  | success (t : TXMut) :
      db.txMutR (Except.ok t) → db.commitMutR t (Except.ok ()) →
      UpdateR db f (Except.ok (f t))

/-- A relation is deterministic when it allows at most one outcome. -/
def DetRel {gam : Type} (R : gam → Prop) : Prop :=
  ∀ x y : gam, R x → R y → x = y

/-- The pure embedding induces a relational model whose relations hold
exactly at the outcomes the pure operations produce. -/
def Database.toRel {tau mu : Type} (db : Database tau mu) :
    DatabaseRel (DbTx tau) (DbTxMut mu) :=
  ⟨fun o => o = db.tx, fun o => o = db.tx_mut,
   fun t o => o = t.commit, fun m o => o = m.commit⟩

/-- Soundness of the relational model: the pure `view` is one of the
relational executions (and likewise `update`). -/
theorem toRel_sound {tau mu T U : Type} (db : Database tau mu)
    (f : DbTx tau → T) (g : DbTxMut mu → U) :
    ViewR db.toRel f (db.view f) ∧ UpdateR db.toRel g (db.update g) := by
  constructor
  · unfold Database.view
    cases ht : db.tx with
    | error e => exact ViewR.openFail e (by simp [Database.toRel, ht])
    | ok tx =>
      cases hc : tx.commit with
      | error e =>
        simp only [hc]
        exact ViewR.commitFail tx e (by simp [Database.toRel, ht])
          (by simp [Database.toRel, hc])
      | ok u =>
        simp only [hc]
        exact ViewR.success tx (by simp [Database.toRel, ht])
          (by simp [Database.toRel, hc])
  · unfold Database.update
    cases ht : db.tx_mut with
    | error e => exact UpdateR.openFail e (by simp [Database.toRel, ht])
    | ok tx =>
      cases hc : tx.commit with
      | error e =>
        simp only [hc]
        exact UpdateR.commitFail tx e (by simp [Database.toRel, ht])
          (by simp [Database.toRel, hc])
      | ok u =>
        simp only [hc]
        exact UpdateR.success tx (by simp [Database.toRel, ht])
          (by simp [Database.toRel, hc])

/-- C10: `view` and `update` are deterministic. If the handle's `tx` /
`tx_mut` operations and the transactions' `commit` operations each admit
at most one outcome, then any two executions of `view` (and any two of
`update`) from the same handle state produce identical results. -/
theorem view_update_deterministic {TX TXMut T U : Type}
    (db : DatabaseRel TX TXMut) (f : TX → T) (g : TXMut → U)
    (htx : DetRel db.txR) (htxm : DetRel db.txMutR)
    (hc : ∀ t : TX, DetRel (db.commitR t))
    (hcm : ∀ m : TXMut, DetRel (db.commitMutR m)) :
    (∀ r₁ r₂ : Except DatabaseError T,
      ViewR db f r₁ → ViewR db f r₂ → r₁ = r₂) ∧
    (∀ r₁ r₂ : Except DatabaseError U,
      UpdateR db g r₁ → UpdateR db g r₂ → r₁ = r₂) := by
  constructor
  · intro r₁ r₂ h₁ h₂
    cases h₁ with
    | openFail e₁ ho₁ =>
      cases h₂ with
      | openFail e₂ ho₂ =>
        have := htx _ _ ho₁ ho₂
        simp only [Except.error.injEq] at this
        simp [this]
      | commitFail t₂ e₂ ho₂ hc₂ =>
        exact absurd (htx _ _ ho₁ ho₂) (by simp)
      | success t₂ ho₂ hc₂ =>
        exact absurd (htx _ _ ho₁ ho₂) (by simp)
    | commitFail t₁ e₁ ho₁ hc₁ =>
      cases h₂ with
      | openFail e₂ ho₂ =>
        exact absurd (htx _ _ ho₁ ho₂) (by simp)
      | commitFail t₂ e₂ ho₂ hc₂ =>
        have ht : t₁ = t₂ := by
          have := htx _ _ ho₁ ho₂
          exact Except.ok.inj this
        subst ht
        have := hc t₁ _ _ hc₁ hc₂
        simp only [Except.error.injEq] at this
        simp [this]
      | success t₂ ho₂ hc₂ =>
        have ht : t₁ = t₂ := by
          have := htx _ _ ho₁ ho₂
          exact Except.ok.inj this
        subst ht
        exact absurd (hc t₁ _ _ hc₁ hc₂) (by simp)
    | success t₁ ho₁ hc₁ =>
      cases h₂ with
      | openFail e₂ ho₂ =>
        exact absurd (htx _ _ ho₁ ho₂) (by simp)
      | commitFail t₂ e₂ ho₂ hc₂ =>
        have ht : t₁ = t₂ := by
          have := htx _ _ ho₁ ho₂
          exact Except.ok.inj this
        subst ht
        exact absurd (hc t₁ _ _ hc₁ hc₂) (by simp)
      | success t₂ ho₂ hc₂ =>
        have ht : t₁ = t₂ := by
          have := htx _ _ ho₁ ho₂
          exact Except.ok.inj this
        subst ht
        rfl
  · intro r₁ r₂ h₁ h₂
    cases h₁ with
    | openFail e₁ ho₁ =>
      cases h₂ with
      | openFail e₂ ho₂ =>
        have := htxm _ _ ho₁ ho₂
        simp only [Except.error.injEq] at this
        simp [this]
      | commitFail t₂ e₂ ho₂ hc₂ =>
        exact absurd (htxm _ _ ho₁ ho₂) (by simp)
      | success t₂ ho₂ hc₂ =>
        exact absurd (htxm _ _ ho₁ ho₂) (by simp)
    | commitFail t₁ e₁ ho₁ hc₁ =>
      cases h₂ with
      | openFail e₂ ho₂ =>
        exact absurd (htxm _ _ ho₁ ho₂) (by simp)
      | commitFail t₂ e₂ ho₂ hc₂ =>
        have ht : t₁ = t₂ := by
          have := htxm _ _ ho₁ ho₂
          exact Except.ok.inj this
        subst ht
        have := hcm t₁ _ _ hc₁ hc₂
        simp only [Except.error.injEq] at this
        simp [this]
      | success t₂ ho₂ hc₂ =>
        have ht : t₁ = t₂ := by
          have := htxm _ _ ho₁ ho₂
          exact Except.ok.inj this
        subst ht
        exact absurd (hcm t₁ _ _ hc₁ hc₂) (by simp)
    | success t₁ ho₁ hc₁ =>
      cases h₂ with
      | openFail e₂ ho₂ =>
        exact absurd (htxm _ _ ho₁ ho₂) (by simp)
      | commitFail t₂ e₂ ho₂ hc₂ =>
        have ht : t₁ = t₂ := by
          have := htxm _ _ ho₁ ho₂
          exact Except.ok.inj this
        subst ht
        exact absurd (hcm t₁ _ _ hc₁ hc₂) (by simp)
      | success t₂ ho₂ hc₂ =>
        have ht : t₁ = t₂ := by
          have := htxm _ _ ho₁ ho₂
          exact Except.ok.inj this
        subst ht
        rfl

/-- Witness for C10: the determinism theorem applied to the relational
model induced by the concrete handle `dbOK`, whose operations admit
exactly one outcome. -/
theorem view_update_deterministic_witness :
    (Except.ok 0 : Except DatabaseError Nat) = Except.ok 0 ∧
    (Except.ok 1 : Except DatabaseError Nat) = Except.ok 1 :=
  have hv : ViewR dbOK.toRel (fun t => t.data) (Except.ok 0) :=
    ViewR.success ⟨0, Except.ok ()⟩ rfl rfl
  have hu : UpdateR dbOK.toRel (fun m => m.data) (Except.ok 1) :=
    UpdateR.success ⟨1, Except.ok ()⟩ rfl rfl
  have hd := view_update_deterministic dbOK.toRel (fun t => t.data)
    (fun m => m.data) (fun _x _y hx hy => hx.trans hy.symm)
    (fun _x _y hx hy => hx.trans hy.symm)
    (fun _t _x _y hx hy => hx.trans hy.symm)
    (fun _m _x _y hx hy => hx.trans hy.symm)
  ⟨hd.1 (Except.ok 0) (Except.ok 0) hv hv,
   hd.2 (Except.ok 1) (Except.ok 1) hu hu⟩
